import Mathlib

/-!
Shallow embedding of `eventsourcing/domain/model/entity.py`: the domain-entity
mutation protocol (`DomainEntity` and its extensions `EntityWithHashchain`,
`VersionedEntity`, `TimestampedEntity`), with the Python method-resolution
chains flattened into explicit Lean functions.

The repository's `events` module (base `DomainEvent`, `EventWithHash`,
`EventWithOriginatorVersion`, `EventWithTimestamp`, `publish`) is not part of
the given sources; its behaviour is modelled from the specification where
noted.  Everything else is translated line by line from `entity.py`.

Identifiers (UUIDs) are modelled as `Nat`, event hashes as `Nat`, and the
`Decimal` timestamps as `Int`.  Attribute dictionaries are association lists
from `String` to `Int`.
-/

namespace Eventsourcing

/-- Which of the library's entity extensions a concrete class composes.
This stands for the concrete Python class (`DomainEntity` itself when all
flags are off, `EntityWithHashchain`, `VersionedEntity`, `TimestampedEntity`,
`TimestampedVersionedEntity`, ...); a topic string resolves to such a class. -/
structure EClass where
  hasHashchain : Bool
  hasVersion : Bool
  hasTimestamp : Bool
  deriving DecidableEq, Repr

/-- The event kinds of the variant model: `Created`, `AttributeChanged`,
`Discarded`, and any further application-defined kind (`custom`), which uses
the base `Event` behaviour of each composed extension. -/
inductive EventKindTag where
  | created
  | attributeChanged
  | discarded
  | custom
  deriving DecidableEq, Repr

/-- The state of a domain entity object.  Fields keep the Python attribute
names.  A field belonging to an extension the concrete class does not compose
is pinned to a fixed default (0 / false / []) and never touched, mirroring an
attribute that is simply absent from the Python object's `__dict__`. -/
structure EntityState where
  cls : EClass
  _id : Nat
  __is_discarded__ : Bool
  __head__ : Nat
  ___version__ : Nat
  ___created_on__ : Int
  ___last_modified__ : Int
  attrs : List (String × Int)
  deriving DecidableEq, Repr

/-- An immutable domain event, with the union of the fields the extensions
use.  `__previous_hash__` is an `Option` because the Python code reads it with
`self.__dict__.get("__previous_hash__")`, which yields `None` when the field
was never stamped.  `extraFields` are the additional kwargs of a `Created`
event (the type-specific attributes of the new entity). -/
structure EventState where
  cls : EClass
  kind : EventKindTag
  originator_id : Nat
  originator_topic : EClass
  originator_version : Nat
  __event_hash__ : Nat
  __previous_hash__ : Option Nat
  timestamp : Int
  name : String
  value : Int
  extraFields : List (String × Int)
  deriving DecidableEq, Repr

/-- The exceptions raised by the mutation protocol, carrying exactly the data
the corresponding Python `raise` passes (the arguments of the message's
`format` call, resp. the positional arguments of `HeadHashError`). -/
inductive EntityError where
  | OriginatorIDError (objId : Nat) (eventOriginatorId : Nat)
  | HeadHashError (objId : Nat) (head : Nat) (eventCls : EClass) (eventKind : EventKindTag)
  | OriginatorVersionError (originatorVersion : Nat) (objVersion : Nat)
      (eventKind : EventKindTag) (entityCls : EClass) (objId : Nat)
  | EntityIsDiscarded
  | TypeErrorNotCallable
  deriving DecidableEq, Repr

/-- `GENESIS_HASH` from the events module (an opaque constant string there). -/
def GENESIS_HASH : Nat := 0

/-- Topic resolution (`resolve_topic`): topics are modelled as the classes
they resolve to, so resolution is the identity. -/
def resolve_topic (t : EClass) : EClass := t

/-- `get_topic`: inverse of `resolve_topic` under the identification above. -/
def get_topic (c : EClass) : EClass := c

/-- `setattr obj name value` on the modelled attribute dictionary. -/
def setattrList (attrs : List (String × Int)) (n : String) (v : Int) :
    List (String × Int) :=
  match attrs with
  | [] => [(n, v)]
  | (k, w) :: rest => if k = n then (n, v) :: rest else (k, w) :: setattrList rest n v

/-- The flattened `__check_obj__` chain for an event of class `e.cls`:
`DomainEntity.Event.__check_obj__` (originator-id check, lines 48-65), then
`EntityWithHashchain.Event.__check_obj__` (head-hash check, lines 278-290)
when the event class composes the hash chain, then
`VersionedEntity.Event.__check_obj__` (version check, lines 366-387) when it
composes versioning.  Each subclass calls the superclass check first, so the
id check always runs before the extension checks. -/
def __check_obj__ (e : EventState) (obj : EntityState) : Except EntityError Unit :=
  if obj._id ≠ e.originator_id then
    .error (.OriginatorIDError obj._id e.originator_id)
  else if e.cls.hasHashchain ∧ some obj.__head__ ≠ e.__previous_hash__ then
    .error (.HeadHashError obj._id obj.__head__ e.cls e.kind)
  else if e.cls.hasVersion ∧ e.originator_version ≠ obj.___version__ + 1 then
    .error (.OriginatorVersionError e.originator_version obj.___version__ e.kind obj.cls obj._id)
  else
    .ok ()

/-- `DomainEntity.__init__` plus the extension `__init__` chain, invoked by
`Created.__mutate__` via `entity_class(**self.__entity_kwargs__)`:
`_id` comes from `originator_id` renamed to `id`, `__is_discarded__` starts
false, `EntityWithHashchain.__init__` seeds `__head__` with the genesis hash,
`VersionedEntity.__init__` takes `__version__` (renamed by
`VersionedEntity.Created.__entity_kwargs__` from `originator_version`), and
`TimestampedEntity.__init__` takes `__created_on__` (renamed from the event's
`timestamp`) and initialises `___last_modified__` to it. -/
def constructEntity (entity_class : EClass) (e : EventState) : EntityState :=
  { cls := entity_class
    _id := e.originator_id
    __is_discarded__ := false
    __head__ := if entity_class.hasHashchain then GENESIS_HASH else 0
    ___version__ := if entity_class.hasVersion then e.originator_version else 0
    ___created_on__ := if entity_class.hasTimestamp then e.timestamp else 0
    ___last_modified__ := if entity_class.hasTimestamp then e.timestamp else 0
    attrs := e.extraFields }

/-- `DomainEntity.Created.__mutate__` (lines 115-128), MRO-flattened: when no
target is supplied the concrete class is resolved from `originator_topic`,
otherwise the supplied target class is used and the topic is ignored; the
entity is constructed from `__entity_kwargs__`; finally
`EntityWithHashchain.Event.__mutate__` (lines 266-276) overwrites the head
with the event hash when the event class composes the hash chain.
(`VersionedEntity.Event.__mutate__` and `TimestampedEntity.Event.__mutate__`
sit after `DomainEntity.Created.__mutate__` in the Created MRO and are never
reached, because `DomainEntity.Created.__mutate__` does not call `super`.) -/
def Created_mutate (e : EventState) (target : Option EClass) : EntityState :=
  let entity_class :=
    match target with
    | none => resolve_topic e.originator_topic
    | some c => c
  let obj := constructEntity entity_class e
  if e.cls.hasHashchain then { obj with __head__ := e.__event_hash__ } else obj

/-- The per-extension mutation stamps run after the structural mutation, in
the order the MRO chains execute them on return from `super`:
`VersionedEntity.Event.__mutate__` (lines 359-364) sets the version,
`TimestampedEntity.Event.__mutate__` (lines 428-434) sets `last_modified`,
and `EntityWithHashchain.Event.__mutate__` (lines 266-276) sets the head —
each only `if obj is not None`, i.e. only when `live` is true. -/
def extensionStamps (e : EventState) (objLive : EntityState × Bool) :
    EntityState × Bool :=
  let obj := objLive.1
  let live := objLive.2
  let obj := if e.cls.hasVersion ∧ live then { obj with ___version__ := e.originator_version } else obj
  let obj := if e.cls.hasTimestamp ∧ live then { obj with ___last_modified__ := e.timestamp } else obj
  let obj := if e.cls.hasHashchain ∧ live then { obj with __head__ := e.__event_hash__ } else obj
  (obj, live)

/-- Applying a event to a live entity: `DomainEntity.__mutate__` (lines
208-229) delegates to `event.__mutate__(self)`, whose flattened MRO chain is:

* `EntityWithHashchain.Discarded.__mutate__` (lines 311-318) first overwrites
  `__head__` with the event hash, before delegating to `super`;
* the base event's `__mutate__` — modelled from the spec: the `events` module
  (not under the given sources) runs `__check_obj__` on a non-None target and
  returns it; a failed check raises, leaving the object as it stands;
* the structural mutation of the kind: `DomainEntity.AttributeChanged.__mutate__`
  (lines 170-173) sets the named attribute,
  `DomainEntity.Discarded.__mutate__` (lines 186-190) sets
  `__is_discarded__` and returns `None` (`live = false`);
* the extension stamps of `extensionStamps`.

A `Created` event applied to a live entity instance would call the instance
(`entity_class(**kwargs)` with `entity_class = obj`), a Python `TypeError`;
modelled as the `TypeErrorNotCallable` error.

The result carries the state of the (aliased, mutated-in-place) entity object
both on success and alongside the raised error. -/
def applyEventToObj (e : EventState) (obj₀ : EntityState) :
    Except (EntityError × EntityState) (EntityState × Bool) :=
  if e.kind = .created then .error (.TypeErrorNotCallable, obj₀)
  else
    let obj := if e.cls.hasHashchain ∧ e.kind = .discarded
      then { obj₀ with __head__ := e.__event_hash__ } else obj₀
    match __check_obj__ e obj with
    | .error err => .error (err, obj)
    | .ok _ =>
      let sm : EntityState × Bool :=
        match e.kind with
        | .attributeChanged => ({ obj with attrs := setattrList obj.attrs e.name e.value }, true)
        | .discarded => ({ obj with __is_discarded__ := true }, false)
        | _ => (obj, true)
      .ok (extensionStamps e sm)

/-- The inputs a caller (and the external collaborators) supply to one
`__trigger_event__` call: the event class's kind, the `AttributeChanged`
kwargs, the hash the hashing collaborator computes for the new event, and the
timestamp the clock supplies. -/
structure TriggerSpec where
  kind : EventKindTag
  name : String
  value : Int
  __event_hash__ : Nat
  timestamp : Int
  deriving DecidableEq, Repr

/-- The event constructed by `__trigger_event__` (line 204), with the kwargs
stamped by the extension overrides before the base method runs:
`VersionedEntity.__trigger_event__` (lines 340-354) stamps
`originator_version = self.__version__ + 1` and
`EntityWithHashchain.__trigger_event__` (lines 325-328) stamps
`__previous_hash__ = self.__head__`. -/
def mkTriggeredEvent (self : EntityState) (s : TriggerSpec) : EventState :=
  { cls := self.cls
    kind := s.kind
    originator_id := self._id
    originator_topic := self.cls
    originator_version := if self.cls.hasVersion then self.___version__ + 1 else 0
    __event_hash__ := s.__event_hash__
    __previous_hash__ := if self.cls.hasHashchain then some self.__head__ else none
    timestamp := s.timestamp
    name := s.name
    value := s.value
    extraFields := [] }

/-- The observable outcome of one `__trigger_event__` call: the state of the
caller's entity object after the call (mutated in place even when an
exception propagates), the events handed to the `publish` collaborator, and
either the constructed event or the raised error. -/
structure TriggerOutcome where
  entity : EntityState
  published : List EventState
  result : Except EntityError EventState
  deriving Repr

/-- `DomainEntity.__trigger_event__` (lines 199-206): assert not discarded
(raising `EntityIsDiscarded` before any event is constructed), construct the
event (with the extension kwargs stamps of `mkTriggeredEvent`), apply it via
`self.__mutate__(event)`, and only then `self.__publish__(event)` (lines
231-245, forwarding to the external `publish`). -/
def __trigger_event__ (self : EntityState) (s : TriggerSpec) : TriggerOutcome :=
  if self.__is_discarded__ then
    { entity := self, published := [], result := .error .EntityIsDiscarded }
  else
    let e := mkTriggeredEvent self s
    match applyEventToObj e self with
    | .error (err, obj) => { entity := obj, published := [], result := .error err }
    | .ok (obj, _) => { entity := obj, published := [e], result := .ok e }

/-- The caller-supplied inputs of one `__create__` call. -/
structure CreateSpec where
  originator_id : Nat
  __event_hash__ : Nat
  timestamp : Int
  extraFields : List (String × Int)
  deriving DecidableEq, Repr

/-- `DomainEntity.__create__` (lines 67-94) with the
`EntityWithHashchain.__create__` override (lines 320-323) that seeds
`__previous_hash__` with the genesis hash, and the `VersionedEntity.Created`
default `originator_version=0` (line 392): construct the `Created` event
(with `originator_topic = get_topic(cls)`), build the entity via the event's
own `__mutate__(None)`, and return both (the event is also published). -/
def __create__ (cls : EClass) (s : CreateSpec) : EntityState × EventState :=
  let e : EventState :=
    { cls := cls
      kind := .created
      originator_id := s.originator_id
      originator_topic := get_topic cls
      originator_version := 0
      __event_hash__ := s.__event_hash__
      __previous_hash__ := if cls.hasHashchain then some GENESIS_HASH else none
      timestamp := s.timestamp
      name := ""
      value := 0
      extraFields := s.extraFields }
  (Created_mutate e none, e)

/-- A sequence of `__trigger_event__` calls, stopping at (and propagating)
the first raised error; on success, returns the final entity state and the
ordered list of events that were constructed and published. -/
def triggerAll (self : EntityState) (specs : List TriggerSpec) :
    Except EntityError (EntityState × List EventState) :=
  match specs with
  | [] => .ok (self, [])
  | s :: rest =>
    let out := __trigger_event__ self s
    match out.result with
    | .error err => .error err
    | .ok e =>
      match triggerAll out.entity rest with
      | .error err => .error err
      | .ok (fin, evs) => .ok (fin, e :: evs)

/-- One step of replaying history through the mutation path: apply the event
to the object reconstructed so far.  A `Discarded` event's mutation returns
no object, so nothing further can be reconstructed; a check failure raises,
aborting the replay (both collapsed to `none` here). -/
def replayStep (acc : Option EntityState) (e : EventState) : Option EntityState :=
  match acc with
  | none => none
  | some obj =>
    match applyEventToObj e obj with
    | .ok (obj', true) => some obj'
    | .ok (_, false) => none
    | .error _ => none

/-- Replaying a full event history with no live target: the `Created` event's
`__mutate__` applied to `None`, then each subsequent event's mutation in
order. -/
def replay (createdEvent : EventState) (events : List EventState) : Option EntityState :=
  events.foldl replayStep (some (Created_mutate createdEvent none))

/-- `DomainEntity.__eq__` (lines 247-248): same concrete type and equal
`__dict__` (all owned fields, extension state included). -/
def DomainEntity_eq (a b : EntityState) : Bool :=
  decide (a.cls = b.cls) && decide (a._id = b._id)
    && decide (a.__is_discarded__ = b.__is_discarded__)
    && decide (a.__head__ = b.__head__) && decide (a.___version__ = b.___version__)
    && decide (a.___created_on__ = b.___created_on__)
    && decide (a.___last_modified__ = b.___last_modified__)
    && decide (a.attrs = b.attrs)

/-- The entity equality of the model is reflexive. -/
theorem DomainEntity_eq_refl (a : EntityState) : DomainEntity_eq a a = true := by
  simp [DomainEntity_eq]

/-- The extension stamps keep the liveness flag of the structural mutation. -/
theorem extensionStamps_snd (e : EventState) (p : EntityState × Bool) :
    (extensionStamps e p).2 = p.2 := by
  simp only [extensionStamps]

/-- The extension stamps never touch `___created_on__`. -/
theorem extensionStamps_created_on (e : EventState) (p : EntityState × Bool) :
    (extensionStamps e p).1.___created_on__ = p.1.___created_on__ := by
  simp only [extensionStamps]
  split_ifs <;> rfl

/-- The extension stamps never touch the class or the id. -/
theorem extensionStamps_cls_id (e : EventState) (p : EntityState × Bool) :
    (extensionStamps e p).1.cls = p.1.cls ∧ (extensionStamps e p).1._id = p.1._id := by
  simp only [extensionStamps]
  split_ifs <;> exact ⟨rfl, rfl⟩

/-- When live, a version-composed event stamps the version. -/
theorem extensionStamps_version (e : EventState) (p : EntityState × Bool)
    (hv : e.cls.hasVersion = true) (hl : p.2 = true) :
    (extensionStamps e p).1.___version__ = e.originator_version := by
  simp only [extensionStamps]
  split_ifs <;> simp_all

/-- When live, a timestamp-composed event stamps `___last_modified__`. -/
theorem extensionStamps_last_modified (e : EventState) (p : EntityState × Bool)
    (ht : e.cls.hasTimestamp = true) (hl : p.2 = true) :
    (extensionStamps e p).1.___last_modified__ = e.timestamp := by
  simp only [extensionStamps]
  split_ifs <;> simp_all

/-- When not live (the target was just discarded) no extension stamp runs. -/
theorem extensionStamps_dead (e : EventState) (p : EntityState × Bool)
    (hl : p.2 = false) : (extensionStamps e p).1 = p.1 := by
  simp only [extensionStamps]
  split_ifs <;> simp_all

/-- Field-level characterisation of a successful event application: the class,
id and `___created_on__` of the target are never changed; the result is live
exactly for non-`Discarded` events; a `Discarded` event sets the flag and (its
mutation having returned `None`) skips the version and timestamp stamps; a
live version-composed event stamps the version and a live timestamp-composed
event stamps `___last_modified__`. -/
theorem apply_ok_fields (e : EventState) (obj o : EntityState) (l : Bool)
    (h : applyEventToObj e obj = .ok (o, l)) :
    o.cls = obj.cls ∧ o._id = obj._id ∧ o.___created_on__ = obj.___created_on__ ∧
    (l = true ↔ e.kind ≠ .discarded) ∧
    (e.kind = .discarded → o.__is_discarded__ = true ∧
      o.___version__ = obj.___version__ ∧ o.___last_modified__ = obj.___last_modified__) ∧
    (e.cls.hasVersion = true → e.kind ≠ .discarded → o.___version__ = e.originator_version) ∧
    (e.cls.hasTimestamp = true → e.kind ≠ .discarded → o.___last_modified__ = e.timestamp) := by
  rcases e with ⟨⟨hh, hv, ht⟩, ekind, eoid, etop, ever, ehash, eprev, ets, en, ev, ex⟩
  cases ekind <;> cases hh <;> cases hv <;> cases ht <;>
    simp [applyEventToObj, extensionStamps] at h <;>
    split at h <;> simp_all <;>
    (obtain ⟨ho, hl⟩ := h; subst ho; subst hl; simp)

/-- A successful application of a non-`Discarded` event returns a live object
(`DomainEntity.Discarded.__mutate__` is the only mutation returning `None`). -/
theorem apply_ok_live (e : EventState) (obj o : EntityState) (l : Bool)
    (h : applyEventToObj e obj = .ok (o, l)) (hk : e.kind ≠ .discarded) :
    l = true :=
  ((apply_ok_fields e obj o l h).2.2.2.1).mpr hk

/-- A successful application of a `Discarded` event returns no live object
and has set the discarded flag (`DomainEntity.Discarded.__mutate__`). -/
theorem apply_discarded_result (e : EventState) (obj o : EntityState) (l : Bool)
    (h : applyEventToObj e obj = .ok (o, l)) (hk : e.kind = .discarded) :
    l = false ∧ o.__is_discarded__ = true := by
  obtain ⟨-, -, -, hiff, hdis, -, -⟩ := apply_ok_fields e obj o l h
  refine ⟨?_, (hdis hk).1⟩
  cases l
  · rfl
  · exact absurd hk (hiff.mp rfl)

/-- A `__trigger_event__` call that returns an event was made on a
non-discarded entity, constructed exactly the stamped event, and applied it
to the entity successfully. -/
theorem trigger_result_ok (self : EntityState) (s : TriggerSpec) (e : EventState)
    (h : (__trigger_event__ self s).result = .ok e) :
    self.__is_discarded__ = false ∧ e = mkTriggeredEvent self s ∧
    ∃ l, applyEventToObj e self = .ok ((__trigger_event__ self s).entity, l) := by
  cases hdv : self.__is_discarded__
  · rcases happ : applyEventToObj (mkTriggeredEvent self s) self with ⟨err, ob⟩ | ⟨ob, l⟩
    · simp [__trigger_event__, hdv, happ] at h
    · simp only [__trigger_event__, hdv, Bool.false_eq_true, if_false, happ] at h ⊢
      injection h with h'
      subst h'
      exact ⟨by trivial, rfl, l, happ⟩
  · simp [__trigger_event__, hdv] at h

/-- The unfolding equation of `triggerAll` on a non-empty list of calls. -/
theorem triggerAll_cons (obj : EntityState) (s : TriggerSpec) (rest : List TriggerSpec) :
    triggerAll obj (s :: rest) =
      (match (__trigger_event__ obj s).result with
       | .error err => .error err
       | .ok e =>
         match triggerAll (__trigger_event__ obj s).entity rest with
         | .error err => .error err
         | .ok (fin, evs) => .ok (fin, e :: evs)) := rfl

/-- Replaying the events constructed by a successful sequence of
non-`Discarded` trigger calls, starting from the entity the sequence started
from, reaches exactly the entity the sequence ended at: live incremental
application and replay run the same mutation path. -/
theorem triggerAll_replay_aux (specs : List TriggerSpec) :
    ∀ (obj fin : EntityState) (evs : List EventState),
      (∀ s ∈ specs, s.kind ≠ .discarded) →
      triggerAll obj specs = .ok (fin, evs) →
      List.foldl replayStep (some obj) evs = some fin := by
  induction specs with
  | nil =>
    intro obj fin evs _ h
    simp [triggerAll] at h
    obtain ⟨h1, h2⟩ := h
    subst h1
    subst h2
    rfl
  | cons s rest ih =>
    intro obj fin evs hnd h
    rw [triggerAll_cons] at h
    rcases hres : (__trigger_event__ obj s).result with err | e
    · rw [hres] at h
      exact absurd h (by simp)
    · rw [hres] at h
      rcases hrec : triggerAll (__trigger_event__ obj s).entity rest with err | ⟨fin', evs'⟩
      · rw [hrec] at h
        exact absurd h (by simp)
      · rw [hrec] at h
        injection h with h'
        have hfin := congrArg Prod.fst h'
        have hevs := congrArg Prod.snd h'
        simp only at hfin hevs
        subst hfin
        subst hevs
        obtain ⟨hdv, heq, l, happ⟩ := trigger_result_ok obj s e hres
        have hk : e.kind ≠ .discarded := by
          rw [heq]
          exact hnd s (List.mem_cons_self s rest)
        have hl : l = true := apply_ok_live e obj _ l happ hk
        subst hl
        rw [List.foldl_cons, show replayStep (some obj) e = some ((__trigger_event__ obj s).entity) from by
          simp [replayStep, happ]]
        exact ih _ fin' evs' (fun t ht => hnd t (List.mem_cons_of_mem s ht)) hrec

/-- A successful sequence of non-`Discarded` trigger calls on a
version-composed entity advances the version by exactly the number of calls
and keeps the concrete class. -/
theorem triggerAll_version_aux (specs : List TriggerSpec) :
    ∀ (obj fin : EntityState) (evs : List EventState),
      obj.cls.hasVersion = true →
      (∀ s ∈ specs, s.kind ≠ .discarded) →
      triggerAll obj specs = .ok (fin, evs) →
      fin.___version__ = obj.___version__ + specs.length ∧ fin.cls = obj.cls := by
  induction specs with
  | nil =>
    intro obj fin evs _ _ h
    simp [triggerAll] at h
    obtain ⟨h1, h2⟩ := h
    subst h1
    exact ⟨rfl, rfl⟩
  | cons s rest ih =>
    intro obj fin evs hver hnd h
    rw [triggerAll_cons] at h
    rcases hres : (__trigger_event__ obj s).result with err | e
    · rw [hres] at h
      exact absurd h (by simp)
    · rw [hres] at h
      rcases hrec : triggerAll (__trigger_event__ obj s).entity rest with err | ⟨fin', evs'⟩
      · rw [hrec] at h
        exact absurd h (by simp)
      · rw [hrec] at h
        injection h with h'
        have hfin := congrArg Prod.fst h'
        simp only at hfin
        subst hfin
        obtain ⟨hdv, heq, l, happ⟩ := trigger_result_ok obj s e hres
        have hk : e.kind ≠ .discarded := by
          rw [heq]
          exact hnd s (List.mem_cons_self s rest)
        have hl : l = true := apply_ok_live e obj _ l happ hk
        subst hl
        obtain ⟨hcls, -, -, -, -, hvstamp, -⟩ := apply_ok_fields e obj _ true happ
        have hev : e.cls.hasVersion = true := by
          rw [heq]
          simpa [mkTriggeredEvent] using hver
        have hover : e.originator_version = obj.___version__ + 1 := by
          rw [heq]
          simp [mkTriggeredEvent, hver]
        have hstep : (__trigger_event__ obj s).entity.___version__ = obj.___version__ + 1 := by
          rw [hvstamp hev hk, hover]
        have hcls' : (__trigger_event__ obj s).entity.cls = obj.cls := hcls
        obtain ⟨ihv, ihc⟩ := ih (__trigger_event__ obj s).entity fin' evs'
          (by rw [hcls']; exact hver)
          (fun t ht => hnd t (List.mem_cons_of_mem s ht)) hrec
        constructor
        · rw [ihv, hstep]
          simp [List.length_cons]
          omega
        · rw [ihc, hcls']

/-- Claim C1: for a hash-chain entity, applying an event whose
`__previous_hash__` differs from the current `__head__` was claimed to fail
with a `HeadHashError` carrying the current head and to leave every field
unchanged, for every event kind including `Discarded`.  The code violates
this for `Discarded`: `EntityWithHashchain.Discarded.__mutate__` overwrites
`__head__` with the event hash before the check runs, so on a hash-chain
entity with head 10 and a `Discarded` event with previous hash 11 and event
hash 20, the raised `HeadHashError` carries the already-mutated head 20 and
the entity is left with `__head__ = 20 ≠ 10`. -/
theorem C1_discarded_head_mutation :
    applyEventToObj
      { cls := ⟨true, false, false⟩, kind := .discarded, originator_id := 1,
        originator_topic := ⟨true, false, false⟩, originator_version := 0,
        __event_hash__ := 20, __previous_hash__ := some 11, timestamp := 0,
        name := "", value := 0, extraFields := [] }
      { cls := ⟨true, false, false⟩, _id := 1, __is_discarded__ := false, __head__ := 10,
        ___version__ := 0, ___created_on__ := 0, ___last_modified__ := 0, attrs := [] }
      = .error (.HeadHashError 1 20 ⟨true, false, false⟩ .discarded,
        { cls := ⟨true, false, false⟩, _id := 1, __is_discarded__ := false, __head__ := 20,
          ___version__ := 0, ___created_on__ := 0, ___last_modified__ := 0, attrs := [] })
      ∧ (10 : Nat) ≠ 20 :=
  ⟨rfl, by decide⟩

/-- Claim C2, counterexample: a history produced by a successful create
followed by a successful `Discarded` trigger replays to no object (the
`Discarded` mutation returns `None`), while the incremental caller still
holds the discarded entity — so replay does not produce a state equal to the
incrementally mutated entity for such histories. -/
theorem C2_counterexample :
    triggerAll (__create__ ⟨false, false, false⟩ ⟨1, 5, 0, []⟩).1 [⟨.discarded, "", 0, 7, 0⟩]
      = .ok ({ cls := ⟨false, false, false⟩, _id := 1, __is_discarded__ := true, __head__ := 0,
               ___version__ := 0, ___created_on__ := 0, ___last_modified__ := 0, attrs := [] },
             [{ cls := ⟨false, false, false⟩, kind := .discarded, originator_id := 1,
                originator_topic := ⟨false, false, false⟩, originator_version := 0,
                __event_hash__ := 7, __previous_hash__ := none, timestamp := 0,
                name := "", value := 0, extraFields := [] }]) ∧
    replay (__create__ ⟨false, false, false⟩ ⟨1, 5, 0, []⟩).2
      [{ cls := ⟨false, false, false⟩, kind := .discarded, originator_id := 1,
         originator_topic := ⟨false, false, false⟩, originator_version := 0,
         __event_hash__ := 7, __previous_hash__ := none, timestamp := 0,
         name := "", value := 0, extraFields := [] }] = none :=
  ⟨rfl, rfl⟩

/-- Claim C2 (amended): for every entity class and every event history
produced by a successful create followed by successful trigger calls none of
which is a `Discarded` event, replaying the full history through the mutation
path with no live target (the `Created` event's mutate applied to `None`,
then each event's mutation in order) produces a state equal, under the
entity equality (same concrete type, all owned fields equal), to the entity
as it stood after the events were applied incrementally. -/
theorem C2_replay_convergence (cls : EClass) (cs : CreateSpec) (specs : List TriggerSpec)
    (hnd : ∀ s ∈ specs, s.kind ≠ .discarded)
    (fin : EntityState) (evs : List EventState)
    (h : triggerAll (__create__ cls cs).1 specs = .ok (fin, evs)) :
    ∃ r, replay (__create__ cls cs).2 evs = some r ∧ DomainEntity_eq r fin = true := by
  refine ⟨fin, ?_, DomainEntity_eq_refl fin⟩
  exact triggerAll_replay_aux specs (__create__ cls cs).1 fin evs hnd h

/-- Witness for C2: a concrete plain entity created with id 1 and one
`AttributeChanged` trigger replays to the same final state. -/
theorem C2_witness :
    ∃ r, replay (__create__ ⟨false, false, false⟩ ⟨1, 5, 0, []⟩).2
        [{ cls := ⟨false, false, false⟩, kind := .attributeChanged, originator_id := 1,
           originator_topic := ⟨false, false, false⟩, originator_version := 0,
           __event_hash__ := 6, __previous_hash__ := none, timestamp := 2,
           name := "foo", value := 7, extraFields := [] }] = some r ∧
      DomainEntity_eq r
        { cls := ⟨false, false, false⟩, _id := 1, __is_discarded__ := false, __head__ := 0,
          ___version__ := 0, ___created_on__ := 0, ___last_modified__ := 0,
          attrs := [("foo", 7)] } = true :=
  C2_replay_convergence ⟨false, false, false⟩ ⟨1, 5, 0, []⟩ [⟨.attributeChanged, "foo", 7, 6, 2⟩]
    (by
      intro t htm
      rw [List.mem_singleton] at htm
      subst htm
      decide)
    _ _ rfl

/-- Claim C3, counterexample: the direct mutation path performs no discarded
check — an `AttributeChanged` event with matching originator id applied via
the mutation method to a discarded plain entity succeeds and mutates it,
contradicting the claim that every application path fails on a discarded
entity. -/
theorem C3_counterexample :
    applyEventToObj
      { cls := ⟨false, false, false⟩, kind := .attributeChanged, originator_id := 1,
        originator_topic := ⟨false, false, false⟩, originator_version := 0,
        __event_hash__ := 0, __previous_hash__ := none, timestamp := 0,
        name := "foo", value := 7, extraFields := [] }
      { cls := ⟨false, false, false⟩, _id := 1, __is_discarded__ := true, __head__ := 0,
        ___version__ := 0, ___created_on__ := 0, ___last_modified__ := 0, attrs := [] }
      = .ok ({ cls := ⟨false, false, false⟩, _id := 1, __is_discarded__ := true, __head__ := 0,
               ___version__ := 0, ___created_on__ := 0, ___last_modified__ := 0,
               attrs := [("foo", 7)] }, true) :=
  rfl

/-- Claim C3 (amended): once an entity's discarded flag is true, every
`__trigger_event__` call on it fails with `EntityIsDiscarded`, constructs no
event, publishes nothing and leaves the entity unchanged; the direct
mutation path performs no discarded check. -/
theorem C3_discarded_trigger_rejected (self : EntityState) (s : TriggerSpec)
    (h : self.__is_discarded__ = true) :
    __trigger_event__ self s =
      { entity := self, published := [], result := .error .EntityIsDiscarded } := by
  simp [__trigger_event__, h]

/-- Witness for C3: triggering on a concrete discarded entity is rejected
unchanged. -/
theorem C3_witness :
    __trigger_event__
      { cls := ⟨false, false, false⟩, _id := 1, __is_discarded__ := true, __head__ := 0,
        ___version__ := 0, ___created_on__ := 0, ___last_modified__ := 0, attrs := [] }
      ⟨.attributeChanged, "foo", 7, 0, 0⟩ =
      { entity := { cls := ⟨false, false, false⟩, _id := 1, __is_discarded__ := true,
                    __head__ := 0, ___version__ := 0, ___created_on__ := 0,
                    ___last_modified__ := 0, attrs := [] },
        published := [], result := .error .EntityIsDiscarded } :=
  C3_discarded_trigger_rejected _ _ rfl

/-- Claim C4, counterexample: a `Discarded` event on a timestamped entity
does not stamp `___last_modified__` — the entity keeps its old value 5
although the event's timestamp is 9, because
`TimestampedEntity.Event.__mutate__` stamps only `if obj is not None` and
the `Discarded` mutation has returned `None`. -/
theorem C4_counterexample :
    applyEventToObj
      { cls := ⟨false, false, true⟩, kind := .discarded, originator_id := 1,
        originator_topic := ⟨false, false, true⟩, originator_version := 0,
        __event_hash__ := 0, __previous_hash__ := none, timestamp := 9,
        name := "", value := 0, extraFields := [] }
      { cls := ⟨false, false, true⟩, _id := 1, __is_discarded__ := false, __head__ := 0,
        ___version__ := 0, ___created_on__ := 3, ___last_modified__ := 5, attrs := [] }
      = .ok ({ cls := ⟨false, false, true⟩, _id := 1, __is_discarded__ := true, __head__ := 0,
               ___version__ := 0, ___created_on__ := 3, ___last_modified__ := 5, attrs := [] },
             false)
      ∧ (5 : Int) ≠ 9 :=
  ⟨rfl, by decide⟩

/-- Claim C4 (amended): for every timestamped entity, `___created_on__` is
set exactly once, from the `Created` event's timestamp, and never changed by
later events; every successfully applied event of every kind except
`Discarded` sets `___last_modified__` to that event's timestamp, while a
`Discarded` event leaves `___last_modified__` unchanged. -/
theorem C4_timestamp_mutation (cls : EClass) (ht : cls.hasTimestamp = true)
    (cs : CreateSpec) (e : EventState) (obj o : EntityState) (l : Bool) :
    ((__create__ cls cs).1.___created_on__ = cs.timestamp ∧
     (__create__ cls cs).1.___last_modified__ = cs.timestamp) ∧
    (applyEventToObj e obj = .ok (o, l) → o.___created_on__ = obj.___created_on__) ∧
    (applyEventToObj e obj = .ok (o, l) → e.cls.hasTimestamp = true →
      e.kind ≠ .discarded → o.___last_modified__ = e.timestamp) ∧
    (applyEventToObj e obj = .ok (o, l) → e.kind = .discarded →
      o.___last_modified__ = obj.___last_modified__) := by
  refine ⟨⟨?_, ?_⟩, ?_, ?_, ?_⟩
  · simp only [__create__, Created_mutate, constructEntity, resolve_topic, get_topic]
    split_ifs <;> simp [ht]
  · simp only [__create__, Created_mutate, constructEntity, resolve_topic, get_topic]
    split_ifs <;> simp [ht]
  · intro h
    exact (apply_ok_fields e obj o l h).2.2.1
  · intro h het hk
    exact (apply_ok_fields e obj o l h).2.2.2.2.2.2 het hk
  · intro h hk
    exact ((apply_ok_fields e obj o l h).2.2.2.2.1 hk).2.2

/-- Witness for C4: a concrete timestamped entity created at timestamp 3 has
`___created_on__ = 3`. -/
theorem C4_witness :
    (__create__ ⟨false, false, true⟩ ⟨1, 5, 3, []⟩).1.___created_on__ = 3 :=
  (C4_timestamp_mutation ⟨false, false, true⟩ rfl ⟨1, 5, 3, []⟩
    { cls := ⟨false, false, true⟩, kind := .custom, originator_id := 1,
      originator_topic := ⟨false, false, true⟩, originator_version := 0,
      __event_hash__ := 0, __previous_hash__ := none, timestamp := 0,
      name := "", value := 0, extraFields := [] }
    { cls := ⟨false, false, true⟩, _id := 1, __is_discarded__ := false, __head__ := 0,
      ___version__ := 0, ___created_on__ := 0, ___last_modified__ := 0, attrs := [] }
    { cls := ⟨false, false, true⟩, _id := 1, __is_discarded__ := false, __head__ := 0,
      ___version__ := 0, ___created_on__ := 0, ___last_modified__ := 0, attrs := [] }
    true).1.1

/-- Claim C5, counterexample: one successful `Discarded` trigger on a
versioned entity created at version 0 leaves the version at 0, not 1 —
`VersionedEntity.Event.__mutate__` stamps the version only `if obj is not
None`, and the `Discarded` mutation has returned `None` (while the event was
stamped `originator_version = 1`). -/
theorem C5_counterexample :
    triggerAll (__create__ ⟨false, true, false⟩ ⟨1, 5, 0, []⟩).1 [⟨.discarded, "", 0, 7, 0⟩]
      = .ok ({ cls := ⟨false, true, false⟩, _id := 1, __is_discarded__ := true, __head__ := 0,
               ___version__ := 0, ___created_on__ := 0, ___last_modified__ := 0, attrs := [] },
             [{ cls := ⟨false, true, false⟩, kind := .discarded, originator_id := 1,
                originator_topic := ⟨false, true, false⟩, originator_version := 1,
                __event_hash__ := 7, __previous_hash__ := none, timestamp := 0,
                name := "", value := 0, extraFields := [] }])
      ∧ (0 : Nat) ≠ 1 :=
  ⟨rfl, by decide⟩

/-- Claim C5 (amended): for every versioned entity, create yields version 0,
each trigger stamps `originator_version = version + 1`, and after k
successful trigger calls none of which is a `Discarded` event the version
equals k (a `Discarded` event's mutation leaves the version unchanged). -/
theorem C5_version_counter (cls : EClass) (hv : cls.hasVersion = true) (cs : CreateSpec)
    (specs : List TriggerSpec) (hnd : ∀ s ∈ specs, s.kind ≠ .discarded)
    (fin : EntityState) (evs : List EventState)
    (h : triggerAll (__create__ cls cs).1 specs = .ok (fin, evs)) :
    (__create__ cls cs).1.___version__ = 0 ∧ fin.___version__ = specs.length := by
  have hcls : (__create__ cls cs).1.cls = cls := by
    simp only [__create__, Created_mutate, constructEntity, resolve_topic, get_topic]
    split_ifs <;> rfl
  have hv0 : (__create__ cls cs).1.___version__ = 0 := by
    simp only [__create__, Created_mutate, constructEntity, resolve_topic, get_topic]
    split_ifs <;> simp
  refine ⟨hv0, ?_⟩
  obtain ⟨hver, -⟩ := triggerAll_version_aux specs (__create__ cls cs).1 fin evs
    (by rw [hcls]; exact hv) hnd h
  rw [hver, hv0, Nat.zero_add]

/-- Witness for C5: a concrete versioned entity, created at version 0, is at
version 1 after one successful `AttributeChanged` trigger. -/
theorem C5_witness :
    (__create__ ⟨false, true, false⟩ ⟨1, 5, 0, []⟩).1.___version__ = 0 ∧
    ({ cls := ⟨false, true, false⟩, _id := 1, __is_discarded__ := false, __head__ := 0,
       ___version__ := 1, ___created_on__ := 0, ___last_modified__ := 0,
       attrs := [("foo", 7)] } : EntityState).___version__ = 1 :=
  C5_version_counter ⟨false, true, false⟩ rfl ⟨1, 5, 0, []⟩ [⟨.attributeChanged, "foo", 7, 6, 0⟩]
    (by
      intro t htm
      rw [List.mem_singleton] at htm
      subst htm
      decide)
    _ [{ cls := ⟨false, true, false⟩, kind := .attributeChanged, originator_id := 1,
         originator_topic := ⟨false, true, false⟩, originator_version := 1,
         __event_hash__ := 6, __previous_hash__ := none, timestamp := 0,
         name := "foo", value := 7, extraFields := [] }] rfl

/-- Claim C6: for a versioned entity (which in this code composes no hash
chain) and an event whose `originator_version` is not the entity's version
plus one, the check fails with an `OriginatorVersionError` carrying the
event's (expected) version, the entity's current version, the event kind,
the entity type and the entity id. -/
theorem C6_version_check (e : EventState) (obj : EntityState)
    (hv : e.cls.hasVersion = true) (hh : e.cls.hasHashchain = false)
    (hid : obj._id = e.originator_id)
    (hver : e.originator_version ≠ obj.___version__ + 1) :
    __check_obj__ e obj = .error
      (.OriginatorVersionError e.originator_version obj.___version__ e.kind obj.cls obj._id) := by
  simp [__check_obj__, hid, hh, hv, hver]

/-- Witness for C6: a concrete versioned entity at version 0 rejects an
event stamped with originator version 5. -/
theorem C6_witness :
    __check_obj__
      { cls := ⟨false, true, false⟩, kind := .attributeChanged, originator_id := 1,
        originator_topic := ⟨false, true, false⟩, originator_version := 5,
        __event_hash__ := 0, __previous_hash__ := none, timestamp := 0,
        name := "a", value := 1, extraFields := [] }
      { cls := ⟨false, true, false⟩, _id := 1, __is_discarded__ := false, __head__ := 0,
        ___version__ := 0, ___created_on__ := 0, ___last_modified__ := 0, attrs := [] }
      = .error (.OriginatorVersionError 5 0 .attributeChanged ⟨false, true, false⟩ 1) :=
  C6_version_check _ _ rfl rfl rfl (by decide)

/-- Claim C7: every trigger call on a discarded entity fails with
`EntityIsDiscarded` before any event is constructed, applied or published,
and a successfully applied `Discarded` event yields no live object, its
mutation having set the discarded flag. -/
theorem C7_discard_terminal (self : EntityState) (s : TriggerSpec)
    (hd : self.__is_discarded__ = true) :
    ((__trigger_event__ self s).result = .error .EntityIsDiscarded ∧
     (__trigger_event__ self s).published = [] ∧
     (__trigger_event__ self s).entity = self) ∧
    (∀ (e : EventState) (obj o : EntityState) (l : Bool), e.kind = .discarded →
      applyEventToObj e obj = .ok (o, l) → l = false ∧ o.__is_discarded__ = true) := by
  refine ⟨?_, fun e obj o l hk h => apply_discarded_result e obj o l h hk⟩
  simp [__trigger_event__, hd]

/-- Witness for C7: a concrete discarded entity rejects a trigger with
`EntityIsDiscarded`. -/
theorem C7_witness :
    (__trigger_event__
      { cls := ⟨false, false, false⟩, _id := 2, __is_discarded__ := true, __head__ := 0,
        ___version__ := 0, ___created_on__ := 0, ___last_modified__ := 0, attrs := [] }
      ⟨.custom, "", 0, 0, 0⟩).result = .error .EntityIsDiscarded :=
  ((C7_discard_terminal _ _ rfl).1).1

/-- Claim C8: an entity produced by create has the `Created` event's
originator id as its id; the `Created` event's mutation with no target
resolves the concrete class from `originator_topic` and constructs the
entity from the event's field set (originator id renamed to id, the
type-specific fields kept, the meta-only fields absent from the entity),
and with a target class supplied it constructs via that class, ignoring the
topic. -/
theorem C8_created_identity (cls : EClass) (cs : CreateSpec) (e : EventState) (c t : EClass) :
    (__create__ cls cs).1._id = (__create__ cls cs).2.originator_id ∧
    (Created_mutate e none).cls = resolve_topic e.originator_topic ∧
    (Created_mutate e none)._id = e.originator_id ∧
    (Created_mutate e none).attrs = e.extraFields ∧
    (Created_mutate e (some c)).cls = c ∧
    Created_mutate { e with originator_topic := t } (some c) = Created_mutate e (some c) := by
  refine ⟨?_, ?_, ?_, ?_, ?_, rfl⟩
  · simp only [__create__, Created_mutate, constructEntity, resolve_topic, get_topic]
    split_ifs <;> rfl
  · simp only [Created_mutate, constructEntity]
    split_ifs <;> rfl
  · simp only [Created_mutate, constructEntity]
    split_ifs <;> rfl
  · simp only [Created_mutate, constructEntity]
    split_ifs <;> rfl
  · simp only [Created_mutate, constructEntity]
    split_ifs <;> rfl

/-- Claim C9, counterexample: the `OriginatorIDError` raised on an id
mismatch carries only the two ids, not the event kind — two events of
different kinds produce the identical error — and for a hash-chain
`Discarded` event the head has already been overwritten when the failing id
check runs, so the failure is not "before any mutation". -/
theorem C9_counterexample :
    applyEventToObj
      { cls := ⟨false, false, false⟩, kind := .attributeChanged, originator_id := 2,
        originator_topic := ⟨false, false, false⟩, originator_version := 0,
        __event_hash__ := 0, __previous_hash__ := none, timestamp := 0,
        name := "foo", value := 7, extraFields := [] }
      { cls := ⟨false, false, false⟩, _id := 1, __is_discarded__ := false, __head__ := 0,
        ___version__ := 0, ___created_on__ := 0, ___last_modified__ := 0, attrs := [] }
      = .error (.OriginatorIDError 1 2,
        { cls := ⟨false, false, false⟩, _id := 1, __is_discarded__ := false, __head__ := 0,
          ___version__ := 0, ___created_on__ := 0, ___last_modified__ := 0, attrs := [] }) ∧
    applyEventToObj
      { cls := ⟨false, false, false⟩, kind := .custom, originator_id := 2,
        originator_topic := ⟨false, false, false⟩, originator_version := 0,
        __event_hash__ := 0, __previous_hash__ := none, timestamp := 0,
        name := "", value := 0, extraFields := [] }
      { cls := ⟨false, false, false⟩, _id := 1, __is_discarded__ := false, __head__ := 0,
        ___version__ := 0, ___created_on__ := 0, ___last_modified__ := 0, attrs := [] }
      = .error (.OriginatorIDError 1 2,
        { cls := ⟨false, false, false⟩, _id := 1, __is_discarded__ := false, __head__ := 0,
          ___version__ := 0, ___created_on__ := 0, ___last_modified__ := 0, attrs := [] }) ∧
    applyEventToObj
      { cls := ⟨true, false, false⟩, kind := .discarded, originator_id := 2,
        originator_topic := ⟨true, false, false⟩, originator_version := 0,
        __event_hash__ := 20, __previous_hash__ := some 10, timestamp := 0,
        name := "", value := 0, extraFields := [] }
      { cls := ⟨true, false, false⟩, _id := 1, __is_discarded__ := false, __head__ := 10,
        ___version__ := 0, ___created_on__ := 0, ___last_modified__ := 0, attrs := [] }
      = .error (.OriginatorIDError 1 2,
        { cls := ⟨true, false, false⟩, _id := 1, __is_discarded__ := false, __head__ := 20,
          ___version__ := 0, ___created_on__ := 0, ___last_modified__ := 0, attrs := [] }) ∧
    EventKindTag.attributeChanged ≠ EventKindTag.custom :=
  ⟨rfl, rfl, rfl, by decide⟩

/-- Claim C9 (amended): for every non-`Created` event applied to a target
entity whose id differs from the event's originator id, the application
fails with an `OriginatorIDError` carrying both ids (the event kind is not
part of the error); no field of the entity has been mutated, except that a
hash-chain `Discarded` event has already overwritten the head with its event
hash before the check runs. -/
theorem C9_id_check (e : EventState) (obj : EntityState)
    (hk : e.kind ≠ .created) (hid : obj._id ≠ e.originator_id) :
    applyEventToObj e obj =
      .error (.OriginatorIDError obj._id e.originator_id,
        if e.cls.hasHashchain ∧ e.kind = .discarded
        then { obj with __head__ := e.__event_hash__ } else obj) := by
  rcases e with ⟨⟨hh, hv, ht⟩, ekind, eoid, etop, ever, ehash, eprev, ets, en, ev, ex⟩
  cases ekind <;> cases hh <;>
    simp_all [applyEventToObj, __check_obj__]

/-- Witness for C9: a concrete `AttributeChanged` event targeting id 2
applied to the entity with id 1 fails with the two-id error and leaves the
entity unchanged. -/
theorem C9_witness :
    applyEventToObj
      { cls := ⟨false, false, false⟩, kind := .attributeChanged, originator_id := 2,
        originator_topic := ⟨false, false, false⟩, originator_version := 0,
        __event_hash__ := 3, __previous_hash__ := none, timestamp := 0,
        name := "x", value := 4, extraFields := [] }
      { cls := ⟨false, false, false⟩, _id := 1, __is_discarded__ := false, __head__ := 5,
        ___version__ := 2, ___created_on__ := 0, ___last_modified__ := 0, attrs := [] }
      = .error (.OriginatorIDError 1 2,
        { cls := ⟨false, false, false⟩, _id := 1, __is_discarded__ := false, __head__ := 5,
          ___version__ := 2, ___created_on__ := 0, ___last_modified__ := 0, attrs := [] }) :=
  C9_id_check _ _ (by decide) (by decide)

/-- Claim C10: `__trigger_event__` hands the event to the publish
collaborator exactly when the mutation step completed without raising: the
published list is the singleton of the constructed event on success and
empty whenever the call failed for any reason. -/
theorem C10_no_publish_on_failure (self : EntityState) (s : TriggerSpec) :
    (__trigger_event__ self s).published =
      (match (__trigger_event__ self s).result with
       | .ok e => [e]
       | .error _ => []) := by
  cases hdv : self.__is_discarded__
  · rcases happ : applyEventToObj (mkTriggeredEvent self s) self with ⟨err, ob⟩ | ⟨ob, l⟩ <;>
      simp [__trigger_event__, hdv, happ]
  · simp [__trigger_event__, hdv]

end Eventsourcing
